import Mathlib

/-!
Shallow embedding of `radosgw_exporter.py` (a Prometheus exporter that polls
a RADOSGW admin API), together with theorems checking the natural-language
specification of the program against the code.

Conventions of the embedding:

* JSON objects handed around by the program are modelled as Lean structures
  whose optional keys are `Option` fields; where the program indexes a key
  unconditionally, the field is mandatory in the model.
* Python code that can raise is modelled in `Except String`; the error string
  names the Python exception that the corresponding statement raises.
* Machine integers of the source are `Nat`/`Int` (Python integers are
  unbounded, so no wrap-around modelling is needed).
* The mutable `self.usage_dict` (nested `defaultdict`s of `Counter`s keyed by
  owner / bucket / category) is flattened to an insertion-ordered association
  list keyed by the (owner, bucket, category) triple; `Counter.update` adds
  counter values onto the existing entry.
-/

/-- One element of a raw usage entry's `categories` list
(`_get_usage`, lines 219-227 of the source): a category name and the four
counters read unconditionally from it. -/
structure RawCategory where
  category : String
  ops : Nat
  successful_ops : Nat
  bytes_sent : Nat
  bytes_received : Nat
deriving DecidableEq

/-- One element of a raw usage entry's `buckets` list (`_get_usage`,
lines 207-217): a bucket name (possibly `""`) and its category list. -/
structure RawEntryBucket where
  bucket : String
  categories : List RawCategory
deriving DecidableEq

/-- One raw usage entry from the `usage` admin resource (`_get_usage`,
lines 198-205): the owner identifier lives under the key `owner`, or under
`user` on Luminous; either key may be absent. -/
structure RawEntry where
  owner : Option String
  user : Option String
  buckets : List RawEntryBucket
deriving DecidableEq

/-- Key of the aggregation dictionary `self.usage_dict`:
(owner, bucket, category). -/
structure UsageKey where
  owner : String
  bucket : String
  category : String
deriving DecidableEq

/-- Value held in `self.usage_dict` for one key: the Python
`collections.Counter` with the four usage counters. -/
structure UsageCounter where
  ops : Nat
  successful_ops : Nat
  bytes_sent : Nat
  bytes_received : Nat
deriving DecidableEq

/-- A fresh `Counter()`: every counter reads as 0. -/
def zeroCounter : UsageCounter := ⟨0, 0, 0, 0⟩

/-- `Counter.update` with a dict of counts adds the counts componentwise. -/
def counterAdd (a b : UsageCounter) : UsageCounter :=
  ⟨a.ops + b.ops, a.successful_ops + b.successful_ops,
   a.bytes_sent + b.bytes_sent, a.bytes_received + b.bytes_received⟩

/-- The aggregation state `self.usage_dict`, flattened to an
insertion-ordered association list over the full key triple. -/
abbrev UsageDict := List (UsageKey × UsageCounter)

/-- Lookup in the aggregation state (first, and by construction only,
occurrence of the key). -/
def dictGet : UsageDict → UsageKey → Option UsageCounter
  | [], _ => none
  | (k', c) :: rest, k => if k = k' then some c else dictGet rest k

/-- The counter total recorded for a key: the stored counter, or zero when
the key was never touched (a fresh `Counter()` reads as 0 everywhere). -/
def totals (s : UsageDict) (k : UsageKey) : UsageCounter :=
  (dictGet s k).getD zeroCounter

/-- The counter dictionary passed to `Counter.update` for one category
(`_get_usage`, lines 224-227). -/
def catCounter (c : RawCategory) : UsageCounter :=
  ⟨c.ops, c.successful_ops, c.bytes_sent, c.bytes_received⟩

/-- One `c.update({...})` step of `_get_usage` (lines 221-227): initialise
the key's counter to `Counter()` if absent, then add the four counts. -/
def bumpKey : UsageDict → UsageKey → UsageCounter → UsageDict
  | [], k, c => [(k, c)]
  | (k', c') :: rest, k, c =>
      if k = k' then (k', counterAdd c' c) :: rest
      else (k', c') :: bumpKey rest k c

/-- Bucket-name normalisation of `_get_usage` (lines 211-214):
`if not bucket['bucket']` — the empty string is falsy — use
`"bucket_root"`, otherwise the name itself. -/
def normBucketName (s : String) : String :=
  if s = "" then "bucket_root" else s

/-- Owner resolution of `_get_usage` (lines 198-202): `if 'owner' in entry`
take it, `elif 'user' in entry` take that; when neither key is present no
branch assigns `bucket_owner` and its first use raises. -/
def resolveOwner (e : RawEntry) : Option String :=
  match e.owner with
  | some o => some o
  | none => e.user

/-- The inner category loop of `_get_usage` (lines 219-227) over one
bucket's categories, threading the mutable `usage_dict`. -/
def processCategories (o bn : String) : UsageDict → List RawCategory → UsageDict
  | s, [] => s
  | s, c :: cs =>
      processCategories o bn (bumpKey s ⟨o, bn, c.category⟩ (catCounter c)) cs

/-- The bucket loop of `_get_usage` (lines 207-227) over one entry's
buckets. -/
def processBuckets (o : String) : UsageDict → List RawEntryBucket → UsageDict
  | s, [] => s
  | s, b :: bs =>
      processBuckets o (processCategories o (normBucketName b.bucket) s b.categories) bs

/-- `_get_usage(entry)` (lines 190-227): resolve the owner — raising
`UnboundLocalError` at line 204 when neither `owner` nor `user` is present —
then fold the entry's buckets into the aggregation state. -/
def getUsage (s : UsageDict) (e : RawEntry) : Except String UsageDict :=
  match resolveOwner e with
  | none => .error "UnboundLocalError: bucket_owner"
  | some o => .ok (processBuckets o s e.buckets)

/-- The entry loop of `_scrape_metrics` (lines 82-83): run `_get_usage` on
each raw entry in order, starting from the given state; an exception in any
call aborts the loop. -/
def mergeEntriesFrom : UsageDict → List RawEntry → Except String UsageDict
  | s, [] => .ok s
  | s, e :: es =>
      match getUsage s e with
      | .error msg => .error msg
      | .ok s' => mergeEntriesFrom s' es

/-- Merging a full list of raw entries starting from the empty dictionary
set up at line 74 of the source. -/
def mergeEntries (es : List RawEntry) : Except String UsageDict :=
  mergeEntriesFrom [] es

/-- Merging several bins independently, each from the empty dictionary,
collecting the resulting states. -/
def mergeBins : List (List RawEntry) → Except String (List UsageDict)
  | [] => .ok []
  | bin :: rest =>
      match mergeEntries bin with
      | .error m => .error m
      | .ok s =>
          match mergeBins rest with
          | .error m => .error m
          | .ok ss => .ok (s :: ss)

/-- Sum of a list of counters. -/
def counterSum : List UsageCounter → UsageCounter
  | [] => zeroCounter
  | c :: cs => counterAdd c (counterSum cs)

/-- Contribution of one raw category record to the key `k`, given the
resolved owner and normalised bucket name it is filed under. -/
def catContrib (o bn : String) (k : UsageKey) (c : RawCategory) : UsageCounter :=
  if k = ⟨o, bn, c.category⟩ then catCounter c else zeroCounter

/-- Contribution of one bucket's category list to the key `k`. -/
def catsContrib (o bn : String) (k : UsageKey) (cs : List RawCategory) : UsageCounter :=
  counterSum (cs.map (catContrib o bn k))

/-- Contribution of one entry's bucket list to the key `k`. -/
def bucketsContrib (o : String) (k : UsageKey) (bs : List RawEntryBucket) : UsageCounter :=
  counterSum (bs.map (fun b => catsContrib o (normBucketName b.bucket) k b.categories))

/-- Contribution of one raw entry to the key `k` (zero when the owner is
unresolvable — that case is excluded wherever this matters). -/
def entryContrib (e : RawEntry) (k : UsageKey) : UsageCounter :=
  match resolveOwner e with
  | none => zeroCounter
  | some o => bucketsContrib o k e.buckets

/-- Contribution of a list of raw entries to the key `k`. -/
def entriesContrib (l : List RawEntry) (k : UsageKey) : UsageCounter :=
  counterSum (l.map (fun e => entryContrib e k))

theorem counterAdd_zero (a : UsageCounter) : counterAdd a zeroCounter = a := by
  cases a; simp [counterAdd, zeroCounter]

theorem zero_counterAdd (a : UsageCounter) : counterAdd zeroCounter a = a := by
  cases a; simp [counterAdd, zeroCounter]

theorem counterAdd_assoc (a b c : UsageCounter) :
    counterAdd (counterAdd a b) c = counterAdd a (counterAdd b c) := by
  cases a; cases b; cases c; simp [counterAdd, Nat.add_assoc]

theorem counterAdd_comm (a b : UsageCounter) :
    counterAdd a b = counterAdd b a := by
  cases a; cases b; simp [counterAdd, Nat.add_comm]

theorem counterAdd_left_comm (a b c : UsageCounter) :
    counterAdd a (counterAdd b c) = counterAdd b (counterAdd a c) := by
  rw [← counterAdd_assoc, counterAdd_comm a b, counterAdd_assoc]

theorem totals_bumpKey (s : UsageDict) (k : UsageKey) (c : UsageCounter) (k' : UsageKey) :
    totals (bumpKey s k c) k' =
      if k' = k then counterAdd (totals s k') c else totals s k' := by
  induction s with
  | nil =>
      by_cases h : k' = k <;>
        simp [bumpKey, totals, dictGet, h, zero_counterAdd]
  | cons p rest ih =>
      obtain ⟨k₀, c₀⟩ := p
      by_cases hk : k = k₀
      · subst hk
        by_cases h' : k' = k <;> simp [bumpKey, totals, dictGet, h']
      · by_cases h' : k' = k₀
        · subst h'
          simp [bumpKey, totals, dictGet, hk, Ne.symm hk]
        · simpa [bumpKey, totals, dictGet, hk, h'] using ih

theorem catsContrib_nil (o bn : String) (k : UsageKey) :
    catsContrib o bn k [] = zeroCounter := rfl

theorem catsContrib_cons (o bn : String) (k : UsageKey) (c : RawCategory)
    (cs : List RawCategory) :
    catsContrib o bn k (c :: cs) =
      counterAdd (catContrib o bn k c) (catsContrib o bn k cs) := rfl

theorem bucketsContrib_cons (o : String) (k : UsageKey) (b : RawEntryBucket)
    (bs : List RawEntryBucket) :
    bucketsContrib o k (b :: bs) =
      counterAdd (catsContrib o (normBucketName b.bucket) k b.categories)
        (bucketsContrib o k bs) := rfl

theorem entriesContrib_cons (e : RawEntry) (es : List RawEntry) (k : UsageKey) :
    entriesContrib (e :: es) k =
      counterAdd (entryContrib e k) (entriesContrib es k) := rfl

theorem totals_nil (k : UsageKey) : totals [] k = zeroCounter := rfl

theorem totals_processCategories (o bn : String) (cs : List RawCategory) :
    ∀ (s : UsageDict) (k : UsageKey),
      totals (processCategories o bn s cs) k =
        counterAdd (totals s k) (catsContrib o bn k cs) := by
  induction cs with
  | nil => intro s k; simp [processCategories, catsContrib_nil, counterAdd_zero]
  | cons c cs ih =>
      intro s k
      rw [processCategories, ih, totals_bumpKey, catsContrib_cons, catContrib]
      by_cases h : k = (⟨o, bn, c.category⟩ : UsageKey)
      · simp [h, counterAdd_assoc]
      · simp [h, zero_counterAdd]

theorem totals_processBuckets (o : String) (bs : List RawEntryBucket) :
    ∀ (s : UsageDict) (k : UsageKey),
      totals (processBuckets o s bs) k =
        counterAdd (totals s k) (bucketsContrib o k bs) := by
  induction bs with
  | nil => intro s k; simp [processBuckets, bucketsContrib, counterSum, counterAdd_zero]
  | cons b bs ih =>
      intro s k
      rw [processBuckets, ih, totals_processCategories, bucketsContrib_cons,
        counterAdd_assoc]

theorem totals_getUsage (s : UsageDict) (e : RawEntry) (o : String)
    (h : resolveOwner e = some o) :
    getUsage s e = .ok (processBuckets o s e.buckets) ∧
      ∀ k, totals (processBuckets o s e.buckets) k =
        counterAdd (totals s k) (entryContrib e k) := by
  constructor
  · simp [getUsage, h]
  · intro k
    rw [totals_processBuckets, entryContrib, h]

theorem mergeEntriesFrom_ok (l : List RawEntry) :
    ∀ s : UsageDict, (∀ e ∈ l, (resolveOwner e).isSome) →
      ∃ s', mergeEntriesFrom s l = .ok s' ∧
        ∀ k, totals s' k = counterAdd (totals s k) (entriesContrib l k) := by
  induction l with
  | nil =>
      intro s _
      exact ⟨s, rfl, fun k => by
        simp [entriesContrib, counterSum, counterAdd_zero]⟩
  | cons e es ih =>
      intro s hres
      obtain ⟨o, ho⟩ := Option.isSome_iff_exists.mp (hres e (List.mem_cons_self e es))
      obtain ⟨hok, htot⟩ := totals_getUsage s e o ho
      obtain ⟨s', hs', htot'⟩ :=
        ih (processBuckets o s e.buckets) (fun e' he' => hres e' (List.mem_cons_of_mem e he'))
      refine ⟨s', ?_, ?_⟩
      · rw [mergeEntriesFrom, hok]
        exact hs'
      · intro k
        rw [htot' k, htot k, entriesContrib_cons, counterAdd_assoc]

theorem counterSum_append (l₁ l₂ : List UsageCounter) :
    counterSum (l₁ ++ l₂) = counterAdd (counterSum l₁) (counterSum l₂) := by
  induction l₁ with
  | nil => simp [counterSum, zero_counterAdd]
  | cons c cs ih => simp [counterSum, ih, counterAdd_assoc]

theorem counterSum_perm {l₁ l₂ : List UsageCounter} (h : l₁.Perm l₂) :
    counterSum l₁ = counterSum l₂ := by
  induction h with
  | nil => rfl
  | cons x _ ih => simp [counterSum, ih]
  | swap x y l => simp [counterSum, counterAdd_left_comm]
  | trans _ _ ih₁ ih₂ => exact ih₁.trans ih₂

theorem entriesContrib_perm {l₁ l₂ : List RawEntry} (h : l₁.Perm l₂) (k : UsageKey) :
    entriesContrib l₁ k = entriesContrib l₂ k :=
  counterSum_perm (h.map _)

theorem entriesContrib_append (l₁ l₂ : List RawEntry) (k : UsageKey) :
    entriesContrib (l₁ ++ l₂) k =
      counterAdd (entriesContrib l₁ k) (entriesContrib l₂ k) := by
  simp [entriesContrib, counterSum_append]

theorem mergeBins_ok (bins : List (List RawEntry))
    (h : ∀ bin ∈ bins, ∀ e ∈ bin, (resolveOwner e).isSome) :
    ∃ ss, mergeBins bins = .ok ss ∧
      ∀ k, counterSum (ss.map (fun s => totals s k)) = entriesContrib bins.flatten k := by
  induction bins with
  | nil =>
      exact ⟨[], rfl, fun k => by simp [counterSum, entriesContrib]⟩
  | cons bin rest ih =>
      obtain ⟨s, hs, htot⟩ :=
        mergeEntriesFrom_ok bin [] (h bin (List.mem_cons_self bin rest))
      obtain ⟨ss, hss, htots⟩ := ih (fun b hb => h b (List.mem_cons_of_mem bin hb))
      refine ⟨s :: ss, ?_, ?_⟩
      · simp only [mergeBins, mergeEntries, hs, hss]
      · intro k
        have h1 : totals s k = entriesContrib bin k := by
          rw [htot k, totals_nil, zero_counterAdd]
        simp only [List.map_cons, counterSum, htots k, List.flatten_cons,
          entriesContrib_append, h1]

/-- The `rgw.main` sub-object of a bucket-stats record's `usage` object
(`_get_bucket_usage`, lines 272-287): the four numeric keys read through
membership checks, each possibly absent. -/
structure RgwMain where
  size_actual : Option Int
  size_kb_actual : Option Int
  size_utilized : Option Int
  num_objects : Option Int
deriving DecidableEq

/-- Shape of the `usage` key of a raw bucket-stats record, as the code
distinguishes it: the key may be absent entirely (its very first read at
line 272 raises `KeyError`), present but an empty — falsy — dict, present
and non-empty but without an `rgw.main` sub-object (the read at line 274
raises `KeyError`), or present with an `rgw.main` sub-object. -/
inductive UsageField where
  | missing : UsageField
  | empty : UsageField
  | mainAbsent : UsageField
  | main : RgwMain → UsageField
deriving DecidableEq

/-- The optional `bucket_quota` sub-object (`_get_bucket_usage`,
lines 296-300), with its two optional numeric keys. -/
structure BucketQuota where
  max_size : Option Int
  max_objects : Option Int
deriving DecidableEq

/-- A raw bucket-stats record that is a dict. `bucket` and `owner` are
indexed unconditionally (lines 264-265) and so are mandatory here;
`zonegroup` and `bucket_quota` are read through membership checks. -/
structure BucketRec where
  bucket : String
  owner : String
  usage : UsageField
  zonegroup : Option String
  bucket_quota : Option BucketQuota
deriving DecidableEq

/-- One element of the list returned by the `bucket` admin resource:
either a dict, or non-dict junk emitted by Hammer releases which
`_get_bucket_usage` skips (lines 322-324). -/
inductive RawBucketStat where
  | junk : String → RawBucketStat
  | dict : BucketRec → RawBucketStat
deriving DecidableEq

/-- The per-bucket gauge values emitted by `_get_bucket_usage`
(lines 303-321) for one record. -/
structure BucketUsage where
  bucket : String
  owner : String
  zonegroup : String
  usage_bytes : Int
  utilized_bytes : Int
  usage_objects : Int
  quota_bytes : Int
  quota_max_objects : Int
deriving DecidableEq

/-- Resolution of `bucket_usage_bytes` from `rgw.main` (lines 273-279):
prefer `size_actual`; Hammer has no bytes field, so fall back to
`size_kb_actual * 1024`; otherwise the initial value 0 stands. -/
def resolveUsageBytes (m : RgwMain) : Int :=
  match m.size_actual with
  | some v => v
  | none =>
      match m.size_kb_actual with
      | some kb => kb * 1024
      | none => 0

/-- Resolution of `bucket_quota_bytes` (lines 269, 296-298): the embedded
quota object's `max_size` when the object and key are present, else 0. -/
def quotaBytesOf (r : BucketRec) : Int :=
  match r.bucket_quota with
  | some q => q.max_size.getD 0
  | none => 0

/-- Resolution of `bucket_quota_max_objects` (lines 270, 299-300). -/
def quotaMaxObjectsOf (r : BucketRec) : Int :=
  match r.bucket_quota with
  | some q => q.max_objects.getD 0
  | none => 0

/-- `_get_bucket_usage(bucket)` (lines 254-324): skip non-dict junk;
for a dict, read `bucket` and `owner`, start all numerics at 0, resolve
them from `usage['rgw.main']` when `usage` is truthy (raising `KeyError`
when the `usage` key or its `rgw.main` sub-object is missing), default
`zonegroup` to `"0"`, read the quota sub-object if present, and emit one
set of gauges. -/
def getBucketUsage : RawBucketStat → Except String (Option BucketUsage)
  | .junk _ => .ok none
  | .dict r =>
      match r.usage with
      | .missing => .error "KeyError: usage"
      | .mainAbsent => .error "KeyError: rgw.main"
      | .empty =>
          .ok (some ⟨r.bucket, r.owner, r.zonegroup.getD "0", 0, 0, 0,
                     quotaBytesOf r, quotaMaxObjectsOf r⟩)
      | .main m =>
          .ok (some ⟨r.bucket, r.owner, r.zonegroup.getD "0",
                     resolveUsageBytes m, m.size_utilized.getD 0,
                     m.num_objects.getD 0,
                     quotaBytesOf r, quotaMaxObjectsOf r⟩)

/-- The bucket loop of `_scrape_metrics` (lines 86-88): run
`_get_bucket_usage` on each record in order, collecting the emitted
records; an exception aborts the loop. -/
def collectBuckets : List RawBucketStat → Except String (List BucketUsage)
  | [] => .ok []
  | b :: bs =>
      match getBucketUsage b with
      | .error m => .error m
      | .ok r =>
          match collectBuckets bs with
          | .error m => .error m
          | .ok rs => .ok (match r with | some u => u :: rs | none => rs)

/-- Parsed JSON body of the per-user quota query
(`user?quota&uid={id}&quota-type=user`): the `max_size` key read
unconditionally at line 335.  Quotas that are not configured report a
negative `max_size`, hence `Int`. -/
structure UserQuotaResp where
  max_size : Int
deriving DecidableEq

/-- The `stats` sub-object of the user-info response, whose `size_actual`
is read unconditionally at line 350. -/
structure UserStats where
  size_actual : Int
deriving DecidableEq

/-- Parsed JSON body of the user-info query (`user?stats=True&uid={id}`),
with the keys read unconditionally at lines 348-350. -/
structure UserInfo where
  display_name : String
  user_id : String
  stats : UserStats
deriving DecidableEq

/-- The per-user gauge values emitted by `_get_user_quota`
(lines 352-360) for one user. -/
structure UserQuotaOut where
  project_name : String
  project_id : String
  utilized_percent : Int
  limit : Int
  used : Int
deriving DecidableEq

/-- `_get_quota_by_project(project)` (lines 331-335): fetch the quota JSON
and evaluate `quota['max_size']`.  When the fetch failed, `_request_data`
returned `None` and the subscript raises `TypeError`. -/
def getQuotaByProject (resp : Option UserQuotaResp) : Except String Int :=
  match resp with
  | none => .error "TypeError: NoneType"
  | some q => .ok q.max_size

/-- Division of the source at line 351, `(used_size*100)/project_quota`.
Modelled from the spec: the interpreter the repository runs under is not
part of the source file; the spec states the program's division here is
truncating ("the source's truncating division semantics ... floor-division"),
i.e. Python 2 integer `/`, which floors toward negative infinity. -/
def pyIntDiv (a b : Int) : Int := Int.fdiv a b

/-- `_get_user_quota(project)` (lines 343-360): obtain the quota limit
(raising if that fetch failed), and only when it is strictly positive and
the user-info fetch returned data, emit the three per-user gauges with
`used_size_percent = (used_size*100)/project_quota`. -/
def getUserQuota (quotaResp : Option UserQuotaResp) (userResp : Option UserInfo) :
    Except String (Option UserQuotaOut) :=
  match getQuotaByProject quotaResp with
  | .error m => .error m
  | .ok pq =>
      if 0 < pq then
        match userResp with
        | none => .ok none
        | some u =>
            .ok (some ⟨u.display_name, u.user_id,
                       pyIntDiv (u.stats.size_actual * 100) pq,
                       pq, u.stats.size_actual⟩)
      else .ok none

/-- The user loop of `_scrape_metrics` (lines 90-92): run `_get_user_quota`
over the user ids in order, collecting the emitted per-user records; an
exception aborts the loop.  The per-user fetch results are supplied as
functions from the user id. -/
def collectQuotas (quotaOf : String → Option UserQuotaResp)
    (userOf : String → Option UserInfo) :
    List String → Except String (List UserQuotaOut)
  | [] => .ok []
  | p :: ps =>
      match getUserQuota (quotaOf p) (userOf p) with
      | .error m => .error m
      | .ok r =>
          match collectQuotas quotaOf userOf ps with
          | .error m => .error m
          | .ok rs => .ok (match r with | some u => u :: rs | none => rs)

deriving instance DecidableEq for Except

/-- An HTTP response as `_request_data` (lines 98-128) inspects it: a
status code, the textual body (`response.content` decoded), and `body`,
the value `response.json()` parses the body to.  The model covers
responses whose body parses as JSON; the body's parsed value is carried
directly. -/
structure HttpResponse (α : Type) where
  status_code : Nat
  content : String
  body : α
deriving DecidableEq

/-- Outcome of `requests.get` inside `_request_data`: a response, or a
raised `requests.exceptions.RequestException` (DNS, connection errors,
etc. — line 126). -/
inductive FetchOutcome (α : Type) where
  | response : HttpResponse α → FetchOutcome α
  | exception : String → FetchOutcome α
deriving DecidableEq

/-- The diagnostics `_request_data` prints: the non-2xx branch prints the
status code and decoded body (lines 121-122), the exception branch prints
the exception (line 127). -/
inductive LogEvent where
  | rejected : Nat → String → LogEvent
  | transportError : String → LogEvent
deriving DecidableEq

/-- `_request_data` (lines 98-128): on a response with status code equal
to `requests.codes.ok` — exactly 200 — return the parsed JSON body; on any
other status code print the code and body and return `None`; on a raised
`RequestException` print it and return `None`.  Result: the returned value
and the printed diagnostics. -/
def requestData {α : Type} (o : FetchOutcome α) : Option α × List LogEvent :=
  match o with
  | .exception m => (none, [.transportError m])
  | .response r =>
      if r.status_code = 200 then (some r.body, [])
      else (none, [.rejected r.status_code r.content])

/-- The inputs one run of `_scrape_metrics` (lines 59-96) consumes: the
three top-level fetch results (lines 76-78), each `none` when the fetch
returned `None` (or a falsy JSON value, which the `if` guards at lines 81,
86 and 90 treat the same way), with `rgw_usage` reduced to its `entries`
list (line 82); and the per-user results of the two fetches
`_get_user_quota` issues for each user id. -/
structure ScrapeInputs where
  rgw_usage : Option (List RawEntry)
  rgw_bucket : Option (List RawBucketStat)
  rgw_users : Option (List String)
  quotaOf : String → Option UserQuotaResp
  userOf : String → Option UserInfo

/-- The reader-visible contents of `self._prometheus_metrics`: the usage
counter series, the per-bucket gauge records and the per-user quota gauge
records (the three metric groups the specification's snapshot comprises). -/
structure Snapshot where
  usage : UsageDict
  buckets : List BucketUsage
  quotas : List UserQuotaOut
deriving DecidableEq

/-- The usage stage of `_scrape_metrics` (lines 81-84): merge the entries
when the usage fetch yielded data, otherwise leave the usage metrics
empty. -/
def stageUsage (inp : ScrapeInputs) : Except String UsageDict :=
  match inp.rgw_usage with
  | some es => mergeEntries es
  | none => .ok []

/-- The bucket stage of `_scrape_metrics` (lines 86-88). -/
def stageBuckets (inp : ScrapeInputs) : Except String (List BucketUsage) :=
  match inp.rgw_bucket with
  | some bs => collectBuckets bs
  | none => .ok []

/-- The user-quota stage of `_scrape_metrics` (lines 90-92). -/
def stageQuotas (inp : ScrapeInputs) : Except String (List UserQuotaOut) :=
  match inp.rgw_users with
  | some us => collectQuotas inp.quotaOf inp.userOf us
  | none => .ok []

/-- One full run of `_scrape_metrics`: the three stages in source order;
an uncaught exception in any stage aborts the cycle (and with it the
scrape thread, since `_scrape_loop` has no handler). -/
def buildSnapshot (inp : ScrapeInputs) : Except String Snapshot :=
  match stageUsage inp with
  | .error m => .error m
  | .ok u =>
      match stageBuckets inp with
      | .error m => .error m
      | .ok bl =>
          match stageQuotas inp with
          | .error m => .error m
          | .ok ql => .ok ⟨u, bl, ql⟩

/-- The states of `self._prometheus_metrics` a concurrent `collect`
(lines 50-52) can observe while `_scrape_metrics` runs, at the stage
boundaries of the cycle: the previous snapshot (before line 71 rebinds the
dict), the freshly emptied metrics (line 71), the state after each of the
three population stages, in source order; an exception in a stage ends the
trace (the thread dies and the last state persists).  `collect` takes no
lock, so every element of this list is observable. -/
def scrapeTrace (prev : Snapshot) (inp : ScrapeInputs) : List Snapshot :=
  prev :: ⟨[], [], []⟩ ::
    (match stageUsage inp with
     | .error _ => []
     | .ok u =>
         ⟨u, [], []⟩ ::
           (match stageBuckets inp with
            | .error _ => []
            | .ok bl =>
                ⟨u, bl, []⟩ ::
                  (match stageQuotas inp with
                   | .error _ => []
                   | .ok ql => [⟨u, bl, ql⟩])))

theorem collectQuotas_error_of_none (quotaOf : String → Option UserQuotaResp)
    (userOf : String → Option UserInfo) (p : String) :
    ∀ us : List String, p ∈ us → quotaOf p = none →
      ∃ m, collectQuotas quotaOf userOf us = .error m := by
  intro us
  induction us with
  | nil => intro h; exact absurd h (List.not_mem_nil p)
  | cons a as ih =>
      intro hmem hq
      cases hga : getUserQuota (quotaOf a) (userOf a) with
      | error m => exact ⟨m, by simp [collectQuotas, hga]⟩
      | ok r =>
          rcases List.mem_cons.mp hmem with h | h
          · subst h
            rw [hq] at hga
            simp [getUserQuota, getQuotaByProject] at hga
          · obtain ⟨m, hm⟩ := ih h hq
            exact ⟨m, by simp [collectQuotas, hga, hm]⟩

/-- C1: the claim says a failed per-user quota fetch makes the Quota
Evaluator return absent without raising and never aborts the poll cycle.
The code contradicts it: `_get_quota_by_project` subscripts the `None`
returned by `_request_data`, raising `TypeError`, and `_scrape_metrics`
has no handler, so the cycle aborts.  This theorem evaluates the code at
the failing input: part one, `_get_user_quota` raises whenever the quota
fetch yielded no data; part two, a cycle whose user list contains any user
with a failed quota fetch aborts instead of completing. -/
theorem radosgw_C1 :
    (∀ u : Option UserInfo, getUserQuota none u = .error "TypeError: NoneType") ∧
    (∀ (inp : ScrapeInputs) (us : List String) (p : String),
      inp.rgw_users = some us → p ∈ us → inp.quotaOf p = none →
      ∃ m, buildSnapshot inp = .error m) := by
  constructor
  · intro u; rfl
  · intro inp us p hus hmem hq
    cases hu : stageUsage inp with
    | error m => exact ⟨m, by simp [buildSnapshot, hu]⟩
    | ok uu =>
        cases hbk : stageBuckets inp with
        | error m => exact ⟨m, by simp [buildSnapshot, hu, hbk]⟩
        | ok bl =>
            obtain ⟨m, hm⟩ :=
              collectQuotas_error_of_none inp.quotaOf inp.userOf p us hmem hq
            exact ⟨m, by simp [buildSnapshot, hu, hbk, stageQuotas, hus, hm]⟩

theorem radosgw_C1_witness :
    ∃ m, buildSnapshot ⟨none, none, some ["p"], fun _ => none, fun _ => none⟩ =
      .error m :=
  radosgw_C1.2 _ ["p"] "p" rfl (by decide) rfl

/-- C2 counterexample: the claim says a concurrent reader observes either
the fully-assembled previous snapshot or the fully-assembled new one.  At
this concrete cycle (one usage entry, one bucket record, one user with a
configured quota; previous snapshot equal to the new one, the backend
being unchanged), the state after the usage stage — usage populated,
buckets and quotas still empty — is observable by `collect` and differs
from both. -/
theorem radosgw_C2_cex :
    buildSnapshot ⟨some [⟨some "o", none, [⟨"b", [⟨"get_obj", 1, 1, 2, 3⟩]⟩]⟩],
                   some [.dict ⟨"b", "o", .empty, none, none⟩], some ["o"],
                   fun _ => some ⟨1000⟩, fun _ => some ⟨"o", "oid", ⟨250⟩⟩⟩ =
      .ok ⟨[(⟨"o", "b", "get_obj"⟩, ⟨1, 1, 2, 3⟩)],
           [⟨"b", "o", "0", 0, 0, 0, 0, 0⟩], [⟨"o", "oid", 25, 1000, 250⟩]⟩ ∧
    (⟨[(⟨"o", "b", "get_obj"⟩, ⟨1, 1, 2, 3⟩)], [], []⟩ : Snapshot) ∈
      scrapeTrace
        ⟨[(⟨"o", "b", "get_obj"⟩, ⟨1, 1, 2, 3⟩)],
         [⟨"b", "o", "0", 0, 0, 0, 0, 0⟩], [⟨"o", "oid", 25, 1000, 250⟩]⟩
        ⟨some [⟨some "o", none, [⟨"b", [⟨"get_obj", 1, 1, 2, 3⟩]⟩]⟩],
         some [.dict ⟨"b", "o", .empty, none, none⟩], some ["o"],
         fun _ => some ⟨1000⟩, fun _ => some ⟨"o", "oid", ⟨250⟩⟩⟩ ∧
    (⟨[(⟨"o", "b", "get_obj"⟩, ⟨1, 1, 2, 3⟩)], [], []⟩ : Snapshot) ≠
      ⟨[(⟨"o", "b", "get_obj"⟩, ⟨1, 1, 2, 3⟩)],
       [⟨"b", "o", "0", 0, 0, 0, 0, 0⟩], [⟨"o", "oid", 25, 1000, 250⟩]⟩ := by
  refine ⟨by decide, by decide, by decide⟩

/-- C2 (amended): publication is not atomic.  `_scrape_metrics` rebinds
`self._prometheus_metrics` to empty families and repopulates them stage by
stage while `collect` reads the same attribute without synchronisation, so
during every successful cycle a reader can observe — besides the previous
and the final snapshot — the cleared state, a state with only the new
usage populated, and a state with the new usage and buckets but no
quotas. -/
theorem radosgw_C2 (prev : Snapshot) (inp : ScrapeInputs) (snap : Snapshot)
    (h : buildSnapshot inp = .ok snap) :
    prev ∈ scrapeTrace prev inp ∧
    (⟨[], [], []⟩ : Snapshot) ∈ scrapeTrace prev inp ∧
    (⟨snap.usage, [], []⟩ : Snapshot) ∈ scrapeTrace prev inp ∧
    (⟨snap.usage, snap.buckets, []⟩ : Snapshot) ∈ scrapeTrace prev inp ∧
    snap ∈ scrapeTrace prev inp := by
  cases hu : stageUsage inp with
  | error m => simp [buildSnapshot, hu] at h
  | ok u =>
      cases hb : stageBuckets inp with
      | error m => simp [buildSnapshot, hu, hb] at h
      | ok bl =>
          cases hq : stageQuotas inp with
          | error m => simp [buildSnapshot, hu, hb, hq] at h
          | ok ql =>
              simp only [buildSnapshot, hu, hb, hq, Except.ok.injEq] at h
              subst h
              simp [scrapeTrace, hu, hb, hq]

theorem radosgw_C2_witness :
    (⟨[], [], []⟩ : Snapshot) ∈
      scrapeTrace ⟨[], [], []⟩
        ⟨some [⟨some "w", none, [⟨"", [⟨"put_obj", 4, 4, 0, 9⟩]⟩]⟩],
         some [.dict ⟨"wb", "w", .empty, none, none⟩], some [],
         fun _ => none, fun _ => none⟩ ∧
    (⟨[], [], []⟩ : Snapshot) ∈
      scrapeTrace ⟨[], [], []⟩
        ⟨some [⟨some "w", none, [⟨"", [⟨"put_obj", 4, 4, 0, 9⟩]⟩]⟩],
         some [.dict ⟨"wb", "w", .empty, none, none⟩], some [],
         fun _ => none, fun _ => none⟩ ∧
    (⟨[(⟨"w", "bucket_root", "put_obj"⟩, ⟨4, 4, 0, 9⟩)], [], []⟩ : Snapshot) ∈
      scrapeTrace ⟨[], [], []⟩
        ⟨some [⟨some "w", none, [⟨"", [⟨"put_obj", 4, 4, 0, 9⟩]⟩]⟩],
         some [.dict ⟨"wb", "w", .empty, none, none⟩], some [],
         fun _ => none, fun _ => none⟩ ∧
    (⟨[(⟨"w", "bucket_root", "put_obj"⟩, ⟨4, 4, 0, 9⟩)],
      [⟨"wb", "w", "0", 0, 0, 0, 0, 0⟩], []⟩ : Snapshot) ∈
      scrapeTrace ⟨[], [], []⟩
        ⟨some [⟨some "w", none, [⟨"", [⟨"put_obj", 4, 4, 0, 9⟩]⟩]⟩],
         some [.dict ⟨"wb", "w", .empty, none, none⟩], some [],
         fun _ => none, fun _ => none⟩ ∧
    (⟨[(⟨"w", "bucket_root", "put_obj"⟩, ⟨4, 4, 0, 9⟩)],
      [⟨"wb", "w", "0", 0, 0, 0, 0, 0⟩], []⟩ : Snapshot) ∈
      scrapeTrace ⟨[], [], []⟩
        ⟨some [⟨some "w", none, [⟨"", [⟨"put_obj", 4, 4, 0, 9⟩]⟩]⟩],
         some [.dict ⟨"wb", "w", .empty, none, none⟩], some [],
         fun _ => none, fun _ => none⟩ :=
  radosgw_C2 ⟨[], [], []⟩
    ⟨some [⟨some "w", none, [⟨"", [⟨"put_obj", 4, 4, 0, 9⟩]⟩]⟩],
     some [.dict ⟨"wb", "w", .empty, none, none⟩], some [],
     fun _ => none, fun _ => none⟩
    ⟨[(⟨"w", "bucket_root", "put_obj"⟩, ⟨4, 4, 0, 9⟩)],
     [⟨"wb", "w", "0", 0, 0, 0, 0, 0⟩], []⟩ (by decide)

/-- C3: for every user with configured quota limit L > 0 and used bytes U,
the emitted `utilized_percent` is the floor of U * 100 / L — the exact
rational quotient with its fractional part discarded. -/
theorem radosgw_C3 (U L : Int) (name uid : String) (hL : 0 < L) :
    getUserQuota (some ⟨L⟩) (some ⟨name, uid, ⟨U⟩⟩) =
      .ok (some ⟨name, uid, ⌊(U * 100 : ℚ) / (L : ℚ)⌋, L, U⟩) := by
  have hdiv : pyIntDiv (U * 100) L = ⌊(U * 100 : ℚ) / (L : ℚ)⌋ := by
    have hLn : ((L.toNat : ℤ)) = L := Int.toNat_of_nonneg hL.le
    have hcast : ((L.toNat : ℕ) : ℚ) = (L : ℚ) := by
      exact_mod_cast congrArg (fun z : ℤ => (z : ℚ)) hLn
    have hfl := Rat.floor_intCast_div_natCast (U * 100) L.toNat
    rw [hcast, hLn] at hfl
    rw [pyIntDiv, Int.fdiv_eq_ediv _ hL.le, ← hfl]
    norm_num
  simp [getUserQuota, getQuotaByProject, hL, hdiv]

theorem radosgw_C3_witness :
    getUserQuota (some ⟨1000⟩) (some ⟨"name", "uid", ⟨250⟩⟩) =
      .ok (some ⟨"name", "uid", 25, 1000, 250⟩) := by
  rw [radosgw_C3 250 1000 "name" "uid" (by norm_num)]
  norm_num

/-- C4: merging a full multiset of raw usage entries and merging any
partition of it into bins independently, then summing the counters at
each (owner, bucket, category) key, give identical totals — the merger
accumulates rather than overwrites recurring keys. -/
theorem radosgw_C4 (full : List RawEntry) (bins : List (List RawEntry))
    (hperm : full.Perm bins.flatten)
    (hres : ∀ e ∈ full, (resolveOwner e).isSome) :
    ∃ sFull sBins, mergeEntries full = .ok sFull ∧ mergeBins bins = .ok sBins ∧
      ∀ k, totals sFull k = counterSum (sBins.map (fun s => totals s k)) := by
  obtain ⟨sFull, hsf, htotf⟩ := mergeEntriesFrom_ok full [] hres
  have hres' : ∀ bin ∈ bins, ∀ e ∈ bin, (resolveOwner e).isSome := by
    intro bin hbin e he
    exact hres e (hperm.mem_iff.mpr (List.mem_flatten.mpr ⟨bin, hbin, he⟩))
  obtain ⟨sBins, hsb, htotb⟩ := mergeBins_ok bins hres'
  refine ⟨sFull, sBins, hsf, hsb, fun k => ?_⟩
  rw [htotf k, totals_nil, zero_counterAdd, htotb k]
  exact entriesContrib_perm hperm k

theorem radosgw_C4_witness :
    ∃ sFull sBins,
      mergeEntries [⟨some "a", none, [⟨"", [⟨"get_obj", 1, 1, 10, 20⟩]⟩]⟩,
                    ⟨none, some "a", [⟨"", [⟨"get_obj", 2, 1, 5, 7⟩]⟩]⟩] = .ok sFull ∧
      mergeBins [[⟨none, some "a", [⟨"", [⟨"get_obj", 2, 1, 5, 7⟩]⟩]⟩],
                 [⟨some "a", none, [⟨"", [⟨"get_obj", 1, 1, 10, 20⟩]⟩]⟩]] = .ok sBins ∧
      ∀ k, totals sFull k = counterSum (sBins.map (fun s => totals s k)) :=
  radosgw_C4 _ _ (by decide) (by decide)

/-- C5: a cycle whose usage-summary fetch fails while the bucket-stats and
user-list fetches succeed (and whose per-record and per-user processing
raises no exception) still completes and publishes a snapshot with an
empty usage list alongside the bucket records and quota records. -/
theorem radosgw_C5 (inp : ScrapeInputs) (bs : List RawBucketStat) (us : List String)
    (bl : List BucketUsage) (ql : List UserQuotaOut)
    (hu : inp.rgw_usage = none) (hb : inp.rgw_bucket = some bs)
    (hus : inp.rgw_users = some us)
    (hbl : collectBuckets bs = .ok bl)
    (hql : collectQuotas inp.quotaOf inp.userOf us = .ok ql) :
    buildSnapshot inp = .ok ⟨[], bl, ql⟩ := by
  simp [buildSnapshot, stageUsage, stageBuckets, stageQuotas, hu, hb, hus, hbl, hql,
    mergeEntries, mergeEntriesFrom]

theorem radosgw_C5_witness :
    buildSnapshot ⟨none, some [.dict ⟨"b", "o", .empty, none, none⟩], some ["u1"],
                   fun _ => some ⟨2000⟩, fun _ => some ⟨"proj", "pid", ⟨500⟩⟩⟩ =
      .ok ⟨[], [⟨"b", "o", "0", 0, 0, 0, 0, 0⟩], [⟨"proj", "pid", 25, 2000, 500⟩]⟩ :=
  radosgw_C5 _ _ _ _ _ rfl rfl rfl (by decide) (by decide)

/-- C6 counterexample: the claim says any 2xx status is parsed and
returned.  A 201 response whose body parses (here to the value 7) is
nevertheless rejected by `_request_data` — it compares against
`requests.codes.ok`, which is exactly 200 — and yields `None` with the
status and body printed. -/
theorem radosgw_C6_cex :
    requestData (.response (⟨201, "Created", (7 : Nat)⟩ : HttpResponse Nat)) =
      (none, [.rejected 201 "Created"]) ∧ 200 ≤ 201 ∧ 201 < 300 := by
  refine ⟨by decide, by decide, by decide⟩

/-- C6 (amended): `_request_data` returns the parsed JSON body exactly for
status code 200; every other status code — other 2xx codes included —
yields an absent result with the status code and body logged, and a raised
transport exception yields an absent result with the exception logged. -/
theorem radosgw_C6 {α : Type} :
    (∀ r : HttpResponse α, r.status_code = 200 →
      requestData (.response r) = (some r.body, [])) ∧
    (∀ r : HttpResponse α, r.status_code ≠ 200 →
      requestData (.response r) = (none, [.rejected r.status_code r.content])) ∧
    (∀ m : String,
      requestData (.exception m : FetchOutcome α) = (none, [.transportError m])) := by
  refine ⟨fun r h => by simp [requestData, h], fun r h => by simp [requestData, h],
    fun m => rfl⟩

theorem radosgw_C6_witness :
    requestData (.response (⟨200, "", "body"⟩ : HttpResponse String)) =
      (some "body", []) ∧
    requestData (.response (⟨403, "denied", "x"⟩ : HttpResponse String)) =
      (none, [.rejected 403 "denied"]) :=
  ⟨radosgw_C6.1 _ rfl, radosgw_C6.2.1 _ (by decide)⟩

/-- C7 counterexample: the claim ranges over every structured bucket-stats
record, but a record whose non-empty `usage` object lacks the `rgw.main`
sub-object makes `_get_bucket_usage` raise `KeyError` instead of resolving
`usage_bytes` at all. -/
theorem radosgw_C7_cex :
    getBucketUsage (.dict ⟨"b", "o", .mainAbsent, none, none⟩) =
      .error "KeyError: rgw.main" := rfl

/-- C7 (amended): for every structured record whose `usage` object carries
`rgw.main`, `usage_bytes` is `size_actual` when present, else
`size_kb_actual` times 1024, else 0; when the `usage` object is empty the
initial 0 stands.  (A non-empty `usage` without `rgw.main` raises
instead — see the counterexample.) -/
theorem radosgw_C7 :
    (∀ (r : BucketRec) (m : RgwMain), r.usage = .main m →
      ∃ u, getBucketUsage (.dict r) = .ok (some u) ∧
        u.usage_bytes =
          (match m.size_actual with
           | some v => v
           | none =>
               match m.size_kb_actual with
               | some kb => kb * 1024
               | none => 0)) ∧
    (∀ r : BucketRec, r.usage = .empty →
      ∃ u, getBucketUsage (.dict r) = .ok (some u) ∧ u.usage_bytes = 0) := by
  constructor
  · intro r m h
    exact ⟨⟨r.bucket, r.owner, r.zonegroup.getD "0", resolveUsageBytes m,
            m.size_utilized.getD 0, m.num_objects.getD 0,
            quotaBytesOf r, quotaMaxObjectsOf r⟩,
           by simp [getBucketUsage, h], rfl⟩
  · intro r h
    exact ⟨⟨r.bucket, r.owner, r.zonegroup.getD "0", 0, 0, 0,
            quotaBytesOf r, quotaMaxObjectsOf r⟩,
           by simp [getBucketUsage, h], rfl⟩

theorem radosgw_C7_witness :
    ∃ u, getBucketUsage
        (.dict ⟨"b", "o", .main ⟨none, some 100, none, none⟩, none, none⟩) =
      .ok (some u) ∧ u.usage_bytes = 102400 := by
  obtain ⟨u, h1, h2⟩ :=
    radosgw_C7.1 ⟨"b", "o", .main ⟨none, some 100, none, none⟩, none, none⟩
      ⟨none, some 100, none, none⟩ rfl
  exact ⟨u, h1, by rw [h2]; decide⟩

/-- C8 counterexample: the claim says the absence of any numeric source
field or of the sub-records enclosing them never causes an error.  A
structured record without the `usage` key — the enclosing sub-record of
the four usage numerics — makes `_get_bucket_usage` raise `KeyError` at
its first read. -/
theorem radosgw_C8_cex :
    getBucketUsage (.dict ⟨"b", "o", .missing, none, none⟩) =
      .error "KeyError: usage" := rfl

/-- C8 (amended): provided the `usage` key is present and is either empty
or carries `rgw.main`, every other absence defaults to 0 without error:
missing `size_actual`/`size_kb_actual`, `size_utilized`, `num_objects`,
a missing `bucket_quota` sub-record, or missing `max_size`/`max_objects`
inside it, each leave the corresponding output at 0 and the record still
yields one BucketUsage.  (A missing `usage` key, or a non-empty `usage`
without `rgw.main`, raises instead — see the counterexample.) -/
theorem radosgw_C8 (r : BucketRec)
    (h : r.usage = .empty ∨ ∃ m, r.usage = .main m) :
    ∃ u, getBucketUsage (.dict r) = .ok (some u) ∧
      (r.bucket_quota = none → u.quota_bytes = 0 ∧ u.quota_max_objects = 0) ∧
      (∀ q, r.bucket_quota = some q → q.max_size = none → u.quota_bytes = 0) ∧
      (∀ q, r.bucket_quota = some q → q.max_objects = none →
        u.quota_max_objects = 0) ∧
      (r.usage = .empty →
        u.usage_bytes = 0 ∧ u.utilized_bytes = 0 ∧ u.usage_objects = 0) ∧
      (∀ m, r.usage = .main m → m.size_actual = none → m.size_kb_actual = none →
        u.usage_bytes = 0) ∧
      (∀ m, r.usage = .main m → m.size_utilized = none → u.utilized_bytes = 0) ∧
      (∀ m, r.usage = .main m → m.num_objects = none → u.usage_objects = 0) := by
  rcases h with h | ⟨m, h⟩
  · refine ⟨⟨r.bucket, r.owner, r.zonegroup.getD "0", 0, 0, 0,
             quotaBytesOf r, quotaMaxObjectsOf r⟩,
            by simp [getBucketUsage, h], ?_, ?_, ?_, ?_, ?_, ?_, ?_⟩
    · intro hq; simp [quotaBytesOf, quotaMaxObjectsOf, hq]
    · intro q hq hms; simp [quotaBytesOf, hq, hms]
    · intro q hq hmo; simp [quotaMaxObjectsOf, hq, hmo]
    · intro _; exact ⟨rfl, rfl, rfl⟩
    · intro m hm; rw [h] at hm; exact absurd hm (by simp)
    · intro m hm; rw [h] at hm; exact absurd hm (by simp)
    · intro m hm; rw [h] at hm; exact absurd hm (by simp)
  · refine ⟨⟨r.bucket, r.owner, r.zonegroup.getD "0", resolveUsageBytes m,
             m.size_utilized.getD 0, m.num_objects.getD 0,
             quotaBytesOf r, quotaMaxObjectsOf r⟩,
            by simp [getBucketUsage, h], ?_, ?_, ?_, ?_, ?_, ?_, ?_⟩
    · intro hq; simp [quotaBytesOf, quotaMaxObjectsOf, hq]
    · intro q hq hms; simp [quotaBytesOf, hq, hms]
    · intro q hq hmo; simp [quotaMaxObjectsOf, hq, hmo]
    · intro he; rw [h] at he; exact absurd he (by simp)
    · intro m' hm' hsa hskb
      rw [h] at hm'
      cases hm'
      simp [resolveUsageBytes, hsa, hskb]
    · intro m' hm' hsu
      rw [h] at hm'
      cases hm'
      simp [hsu]
    · intro m' hm' hno
      rw [h] at hm'
      cases hm'
      simp [hno]

theorem radosgw_C8_witness :
    ∃ u, getBucketUsage
        (.dict ⟨"b", "o", .main ⟨none, none, none, none⟩, none, none⟩) =
      .ok (some u) ∧ u.usage_bytes = 0 ∧ u.utilized_bytes = 0 ∧
      u.usage_objects = 0 ∧ u.quota_bytes = 0 ∧ u.quota_max_objects = 0 := by
  obtain ⟨u, h1, h2, _, _, _, h6, h7, h8⟩ :=
    radosgw_C8 ⟨"b", "o", .main ⟨none, none, none, none⟩, none, none⟩
      (Or.inr ⟨⟨none, none, none, none⟩, rfl⟩)
  exact ⟨u, h1, h6 _ rfl rfl rfl, h7 _ rfl rfl, h8 _ rfl rfl,
    (h2 rfl).1, (h2 rfl).2⟩

/-- C9: a user whose configured quota limit is at most zero yields no
UserQuota record; an emitted record always carries a strictly positive
limit (so `utilized_percent` is only ever present for limits greater than
zero); and a user with limit 1000 and used 250 gets utilized_percent
25. -/
theorem radosgw_C9 :
    (∀ (L : Int) (u : Option UserInfo), L ≤ 0 →
      getUserQuota (some ⟨L⟩) u = .ok none) ∧
    (∀ (qr : Option UserQuotaResp) (ur : Option UserInfo) (out : UserQuotaOut),
      getUserQuota qr ur = .ok (some out) → 0 < out.limit) ∧
    getUserQuota (some ⟨1000⟩) (some ⟨"p", "i", ⟨250⟩⟩) =
      .ok (some ⟨"p", "i", 25, 1000, 250⟩) := by
  refine ⟨?_, ?_, by decide⟩
  · intro L u hL
    simp [getUserQuota, getQuotaByProject, not_lt.mpr hL]
  · intro qr ur out h
    match qr with
    | none => simp [getUserQuota, getQuotaByProject] at h
    | some q =>
        by_cases hq : 0 < q.max_size
        · match ur with
          | none => simp [getUserQuota, getQuotaByProject, hq] at h
          | some u =>
              simp only [getUserQuota, getQuotaByProject, if_pos hq,
                Except.ok.injEq, Option.some.injEq] at h
              rw [← h]
              exact hq
        · simp [getUserQuota, getQuotaByProject, hq] at h

theorem radosgw_C9_witness :
    getUserQuota (some ⟨0⟩) none = .ok none :=
  radosgw_C9.1 0 none le_rfl

/-- C10: the Usage Merger is total only under the precondition that each
raw entry carries an `owner` or a `user` field.  An entry with neither
makes `_get_usage` raise `UnboundLocalError` — the entry is not skipped —
while an entry with either field is always processed without error. -/
theorem radosgw_C10 :
    (∀ (s : UsageDict) (e : RawEntry), e.owner = none → e.user = none →
      getUsage s e = .error "UnboundLocalError: bucket_owner") ∧
    (∀ (s : UsageDict) (e : RawEntry), e.owner.isSome ∨ e.user.isSome →
      ∃ s', getUsage s e = .ok s') := by
  constructor
  · intro s e ho hu
    simp [getUsage, resolveOwner, ho, hu]
  · intro s e h
    have : (resolveOwner e).isSome := by
      rcases h with h | h
      · obtain ⟨o, ho⟩ := Option.isSome_iff_exists.mp h
        simp [resolveOwner, ho]
      · obtain ⟨o, ho⟩ := Option.isSome_iff_exists.mp h
        cases he : e.owner <;> simp [resolveOwner, he, ho]
    obtain ⟨o, ho⟩ := Option.isSome_iff_exists.mp this
    exact ⟨processBuckets o s e.buckets, by simp [getUsage, ho]⟩

theorem radosgw_C10_witness :
    getUsage [] ⟨none, none, []⟩ = .error "UnboundLocalError: bucket_owner" ∧
    ∃ s', getUsage [] ⟨some "o", none, []⟩ = .ok s' :=
  ⟨radosgw_C10.1 [] ⟨none, none, []⟩ rfl rfl,
   radosgw_C10.2 [] ⟨some "o", none, []⟩ (Or.inl rfl)⟩
